import Mathlib

/-!
Shallow embedding of the shotty screenshot server (src/server.py).

External effects (subprocess invocations, the session bus, the filesystem)
are modelled as explicit environment values describing the outcome of each
call; exceptions are modelled with Except, falsy/truthy Python values with
explicit helper functions. Availability probes are modelled as Bool-valued,
per the ScreenshotBackend.is_available contract, and a successful capture is
modelled as yielding the artifact bytes (the write-once store of the spec).
-/

namespace Shotty

/-- Python str() applied to an optional numeric JSON id: str(None) is the
four-letter string None, matching the comparison in _get_window_geometry_gnome. -/
def pyStr : Option Int → String
  | none => "None"
  | some n => toString n

/-- Python truthiness of an optional string: None and the empty string are falsy. -/
def pyTruthy : Option String → Bool
  | none => false
  | some s => s != ""

/-- One entry of the JSON list returned by the
org.gnome.Shell.Extensions.Windows.List session-bus call. Fields are optional
because the Python code reads them with dict.get; rect is the raw coordinate
dictionary, modelled as an association list (empty when the key is missing or
the dict is empty, matching dict.get with an empty-dict default). -/
structure WindowEntry where
  id : Option Int
  wm_class : Option String
  frame_type : Option Int
  window_type : Option Int
  rect : List (String × Int)
  focus : Option Bool
deriving DecidableEq

/-- The dictionary produced by Window.to_dict. -/
structure Window where
  id : String
  title : String
deriving DecidableEq

/-- Outcome of one subprocess.run invocation: the call either raises
(timeout, missing binary) or returns with an exit code. -/
inductive RunOutcome where
  | raise
  | exit (code : Int)
deriving DecidableEq

/-- Outcome of the gdbus window-list call: the subprocess raises, or exits
with a code and an stdout that either parses into window entries (some) or is
malformed (none). -/
inductive ListResponse where
  | raise
  | exit (code : Int) (parsed : Option (List WindowEntry))
deriving DecidableEq

/-- Python dict lookup rect[k] on the rect association list. -/
def rectLookup (rect : List (String × Int)) (k : String) : Option Int :=
  match rect with
  | [] => none
  | (k2, v) :: rest => if k2 = k then some v else rectLookup rest k

/-- The geometry string x,y widthxheight built by _get_window_geometry_gnome. -/
def geomString (x y w h : Int) : String :=
  toString x ++ "," ++ toString y ++ " " ++ toString w ++ "x" ++ toString h

/-- The f-string of _get_window_geometry_gnome: reading a coordinate key that
is missing from a non-empty rect dict raises KeyError (modelled as error). -/
def formatRect (rect : List (String × Int)) : Except Unit String :=
  match rectLookup rect "x", rectLookup rect "y",
        rectLookup rect "width", rectLookup rect "height" with
  | some x, some y, some w, some h => Except.ok (geomString x y w h)
  | _, _, _, _ => Except.error ()

/-- The scan loop of _get_window_geometry_gnome over the parsed entries: a
matching id with an empty rect dict falls through to later entries; a matching
id with a non-empty rect returns its formatted geometry (or raises KeyError). -/
def geometryScan (window_id : String) : List WindowEntry → Except Unit (Option String)
  | [] => Except.ok none
  | e :: rest =>
    if pyStr e.id = window_id then
      if e.rect.isEmpty then geometryScan window_id rest
      else (formatRect e.rect).map some
    else geometryScan window_id rest

/-- _get_window_geometry_gnome: a raised subprocess call, a nonzero exit, a
malformed response or a KeyError during formatting is caught and mapped to
None; otherwise the scan result is returned. -/
def get_window_geometry_gnome (window_id : String) (resp : ListResponse) : Option String :=
  match resp with
  | ListResponse.raise => none
  | ListResponse.exit c parsed =>
    if c = 0 then
      match parsed with
      | none => none
      | some es =>
        match geometryScan window_id es with
        | Except.ok r => r
        | Except.error _ => none
    else none

/-- First scan of get_active_window: the first entry whose focus field is
truthy; str of its id raises KeyError when the id is missing (error, caught by
the outer handler); none when no entry is focused. -/
def findFocusedId : List WindowEntry → Option (Except Unit String)
  | [] => none
  | e :: rest =>
    if e.focus.getD false then
      some (match e.id with
            | some n => Except.ok (toString n)
            | none => Except.error ())
    else findFocusedId rest

/-- Second scan of get_active_window: the first entry with normal frame and
window type flags. -/
def findNormalId : List WindowEntry → Option (Except Unit String)
  | [] => none
  | e :: rest =>
    if e.frame_type == some 0 && e.window_type == some 0 then
      some (match e.id with
            | some n => Except.ok (toString n)
            | none => Except.error ())
    else findNormalId rest

/-- WindowStateManager.get_active_window: on a clean exit the response is
parsed and scanned for a focused entry, then for the first normal entry; every
failure (raise, nonzero exit, malformed response, KeyError) yields None. -/
def get_active_window (resp : ListResponse) : Option String :=
  match resp with
  | ListResponse.raise => none
  | ListResponse.exit c parsed =>
    if c = 0 then
      match parsed with
      | none => none
      | some es =>
        match findFocusedId es with
        | some (Except.ok s) => some s
        | some (Except.error _) => none
        | none =>
          match findNormalId es with
          | some (Except.ok s) => some s
          | some (Except.error _) => none
          | none => none
    else none

/-- WindowStateManager.remember_active_window: the slot is overwritten with
the result of get_active_window. -/
def remember_active_window (resp : ListResponse) : Option String :=
  get_active_window resp

/-- _try_focus_window: the activation call raising, or exiting nonzero
(RuntimeError), is re-raised to the caller; a zero exit returns normally. -/
def try_focus_window (activation : RunOutcome) : Except Unit Unit :=
  match activation with
  | RunOutcome.raise => Except.error ()
  | RunOutcome.exit c => if c = 0 then Except.ok () else Except.error ()

/-- WindowStateManager.restore_previous_window: when the slot is truthy the
activation is attempted and the slot is cleared after a successful activation;
an exception from the activation is caught and logged, leaving the slot as it
was; a falsy slot (None or the empty string) is left untouched. -/
def restore_previous_window (prev : Option String) (activation : RunOutcome) :
    Option String :=
  match prev with
  | none => none
  | some w =>
    if w = "" then some w
    else
      match try_focus_window activation with
      | Except.ok _ => none
      | Except.error _ => some w

/-- The filter of _list_windows_via_extension: dict.get on frame_type and
window_type compared against 0. -/
def conforming (e : WindowEntry) : Bool :=
  e.frame_type == some 0 && e.window_type == some 0

/-- The conversion loop of _list_windows_via_extension: conforming entries are
mapped to Window dicts with the stringified numeric id and the wm_class title
(defaulting to Unknown); reading a missing id raises KeyError (error),
discarding the whole result. -/
def buildWindows : List WindowEntry → Except Unit (List Window)
  | [] => Except.ok []
  | e :: rest =>
    if conforming e then
      match e.id with
      | none => Except.error ()
      | some n =>
        match buildWindows rest with
        | Except.ok ws =>
          Except.ok ({ id := toString n, title := e.wm_class.getD "Unknown" } :: ws)
        | Except.error u => Except.error u
    else buildWindows rest

/-- _list_windows_via_extension: a raised subprocess call, a nonzero exit or a
malformed response raises RuntimeError (error); otherwise the parsed entries
are filtered and converted. The final JSON serialization of the dicts is
abstracted away (the result is the list of dicts). -/
def list_windows_via_extension (resp : ListResponse) : Except Unit (List Window) :=
  match resp with
  | ListResponse.raise => Except.error ()
  | ListResponse.exit c parsed =>
    if c = 0 then
      match parsed with
      | none => Except.error ()
      | some es => buildWindows es
    else Except.error ()

/-- list_windows: the primary extension strategy, falling back to the
process-scan strategy on any exception; processScan is the environment-given
outcome of _list_windows_via_processes for this call; when both fail a
RuntimeError is raised to the Host. -/
def list_windows (resp : ListResponse) (processScan : Except Unit (List Window)) :
    Except Unit (List Window) :=
  match list_windows_via_extension resp with
  | Except.ok ws => Except.ok ws
  | Except.error _ =>
    match processScan with
    | Except.ok ws => Except.ok ws
    | Except.error _ => Except.error ()

/-- Observable behavior of one abstract ScreenshotBackend during one
BackendManager call: its availability probe (Bool-valued per the interface
contract), and the outcome of each capture method — some true for a confirmed
capture, some false for a reported failure, none for a raised exception
(caught by the manager). -/
structure BackendBehavior where
  available : Bool
  screen : Option Bool
  window : Option Bool
deriving DecidableEq

/-- BackendManager.capture_screen: iterate the backends in order, probing
availability, invoking capture_screen on available ones, catching exceptions,
stopping at the first success. The second component is the list of backends on
which capture_screen was actually invoked. -/
def capture_screen : List BackendBehavior → Bool × List BackendBehavior
  | [] => (false, [])
  | b :: rest =>
    if b.available then
      if b.screen == some true then (true, [b])
      else ((capture_screen rest).1, b :: (capture_screen rest).2)
    else capture_screen rest

/-- BackendManager.capture_window: same iteration as capture_screen, invoking
capture_window on each available backend. -/
def capture_window : List BackendBehavior → Bool × List BackendBehavior
  | [] => (false, [])
  | b :: rest =>
    if b.available then
      if b.window == some true then (true, [b])
      else ((capture_window rest).1, b :: (capture_window rest).2)
    else capture_window rest

/-- _capture_full_screen: delegates to the backend manager; on success the
freshly written artifact is read back and returned (screenData), otherwise
RuntimeError is raised. -/
def capture_full_screen (_include_cursor : Bool) (bs : List BackendBehavior)
    (screenData : String) : Except Unit String :=
  if (capture_screen bs).1 then Except.ok screenData else Except.error ()

/-- _capture_window_by_id_no_restore: delegates to the backend manager for the
window capture; a false return degrades to _capture_full_screen. -/
def capture_window_by_id_no_restore (_window_id : String) (include_cursor : Bool)
    (bs : List BackendBehavior) (windowData screenData : String) :
    Except Unit String :=
  if (capture_window bs).1 then Except.ok windowData
  else capture_full_screen include_cursor bs screenData

/-- Focus-related actions and capture attempts of one capture_screenshot call,
in execution order. -/
inductive OrchEvent where
  | remember
  | capture
  | restore
deriving DecidableEq

/-- Environment of one capture_screenshot call: the backend behaviors, the
artifact bytes of the two destinations, the window-list response seen by
remember_active_window, and the outcome of the activation issued by
restore_previous_window. -/
structure OrchEnv where
  bs : List BackendBehavior
  windowData : String
  screenData : String
  listResp : ListResponse
  activation : RunOutcome
deriving DecidableEq

/-- capture_screenshot: a truthy window_id runs remember_active_window, the
window capture body, and restore_previous_window in a finally block (also on
the error path); otherwise the full screen is captured with no focus
management. Returns the Host-visible result, the final focus slot, and the
event trace. -/
def capture_screenshot (window_id : Option String) (include_cursor : Bool)
    (env : OrchEnv) (slot : Option String) :
    Except Unit String × Option String × List OrchEvent :=
  if pyTruthy window_id then
    let slot1 := remember_active_window env.listResp
    let result := capture_window_by_id_no_restore (window_id.getD "") include_cursor
      env.bs env.windowData env.screenData
    let slot2 := restore_previous_window slot1 env.activation
    (result, slot2, [OrchEvent.remember, OrchEvent.capture, OrchEvent.restore])
  else
    (capture_full_screen include_cursor env.bs env.screenData, slot,
      [OrchEvent.capture])

/-- Strategy steps of GNOMEShellBackend.capture_window, in source order. -/
inductive GStep where
  | grimGeometry
  | focusWindow
  | gnomeScreenshotWindow
  | grimInteractive
deriving DecidableEq

/-- Environment of one GNOMEShellBackend.capture_window call: the window-list
response used for geometry resolution, and for each external tool its run
outcome plus whether a confirmed file write exists afterwards. -/
structure GnomeWindowEnv where
  listResp : ListResponse
  grimGeo : RunOutcome
  grimGeoFile : Bool
  focus : RunOutcome
  gnomeShot : RunOutcome
  gnomeShotFile : Bool
  slurp : RunOutcome
  grimSlurp : RunOutcome
  grimSlurpFile : Bool
deriving DecidableEq

/-- _try_grim_window_interactive inside the methods loop: slurp selects a
region and grim captures it; any raise or nonzero exit of either tool, or a
missing output file, ends the loop with failure (the exception is caught and
the loop is exhausted); a confirmed file write succeeds. -/
def tryInteractiveStep (env : GnomeWindowEnv) (tr : List GStep) : Bool × List GStep :=
  let tr2 := tr ++ [GStep.grimInteractive]
  match env.slurp with
  | RunOutcome.raise => (false, tr2)
  | RunOutcome.exit c =>
    if c = 0 then
      match env.grimSlurp with
      | RunOutcome.raise => (false, tr2)
      | RunOutcome.exit c2 =>
        if c2 = 0 then
          if env.grimSlurpFile then (true, tr2) else (false, tr2)
        else (false, tr2)
    else (false, tr2)

/-- The focus-based fallback of GNOMEShellBackend.capture_window: the
activation raising propagates to the outer handler (backend returns False);
otherwise gnome-screenshot in window mode is tried, then grim with slurp. -/
def focusFallback (env : GnomeWindowEnv) (tr : List GStep) : Bool × List GStep :=
  let trf := tr ++ [GStep.focusWindow]
  match try_focus_window env.focus with
  | Except.error _ => (false, trf)
  | Except.ok _ =>
    let trg := trf ++ [GStep.gnomeScreenshotWindow]
    match env.gnomeShot with
    | RunOutcome.raise => tryInteractiveStep env trg
    | RunOutcome.exit c =>
      if c = 0 then
        if env.gnomeShotFile then (true, trg) else tryInteractiveStep env trg
      else tryInteractiveStep env trg

/-- GNOMEShellBackend.capture_window: geometry-based grim capture first when
geometry resolves (a raise or nonzero exit of grim reaches the outer handler
and the backend returns False; a clean exit without a file falls through),
then the focus-based fallback. The second component is the list of strategy
steps attempted. -/
def gnome_capture_window (window_id : String) (env : GnomeWindowEnv) :
    Bool × List GStep :=
  match get_window_geometry_gnome window_id env.listResp with
  | some _ =>
    match env.grimGeo with
    | RunOutcome.raise => (false, [GStep.grimGeometry])
    | RunOutcome.exit c =>
      if c = 0 then
        if env.grimGeoFile then (true, [GStep.grimGeometry])
        else focusFallback env [GStep.grimGeometry]
      else (false, [GStep.grimGeometry])
  | none => focusFallback env []

/-- Observable behavior of the XDGPortalBackend during one call: the
availability probe (initialization succeeded) and the window-capture outcome
(its internal exceptions are caught and reported as False). -/
structure PortalEnv where
  available : Bool
  windowOk : Bool
deriving DecidableEq

/-- Capture invocations of one BackendManager.capture_window call over the
concrete backend list, portal first. -/
inductive CaptureEvent where
  | portalWindow
  | gstep (s : GStep)
deriving DecidableEq

/-- BackendManager.capture_window over the concrete backend list
[XDGPortalBackend, GNOMEShellBackend] of BackendManager.__init__: the portal
backend is probed and tried first, then the GNOME backend with its internal
strategy chain. The second component is the ordered trace of capture
invocations. -/
def backend_manager_capture_window (portal : PortalEnv) (gnomeAvailable : Bool)
    (window_id : String) (genv : GnomeWindowEnv) : Bool × List CaptureEvent :=
  let gnomePart : List CaptureEvent → Bool × List CaptureEvent := fun tr =>
    if gnomeAvailable then
      let r := gnome_capture_window window_id genv
      (r.1, tr ++ r.2.map CaptureEvent.gstep)
    else (false, tr)
  if portal.available then
    if portal.windowOk then (true, [CaptureEvent.portalWindow])
    else gnomePart [CaptureEvent.portalWindow]
  else gnomePart []

/-- A window entry with id 7 and the rectangle 1,2 3x4, used as a concrete
enumeration scenario. -/
def entry7 : WindowEntry :=
  ⟨some 7, none, none, none, [("x", 1), ("y", 2), ("width", 3), ("height", 4)], none⟩

/-- A clean one-entry enumeration response containing entry7. -/
def listResp7 : ListResponse := ListResponse.exit 0 (some [entry7])

/-- A window entry whose rect dict is non-empty but has width 0 and height 0. -/
def entryZero : WindowEntry :=
  ⟨some 9, none, none, none, [("x", 0), ("y", 0), ("width", 0), ("height", 0)], none⟩

/-- A clean one-entry enumeration response containing entryZero. -/
def respZero : ListResponse := ListResponse.exit 0 (some [entryZero])

/-- An environment whose enumeration resolves the geometry of window 7, and in
which every capture tool fails: grim with geometry exits 0 without a file, the
activation succeeds, gnome-screenshot exits nonzero, slurp succeeds and the
final grim exits nonzero. -/
def genvOrder : GnomeWindowEnv :=
  ⟨listResp7, RunOutcome.exit 0, false, RunOutcome.exit 0, RunOutcome.exit 1,
    false, RunOutcome.exit 0, RunOutcome.exit 1, false⟩

/-- An orchestration environment with no backends and failing session-bus
calls. -/
def orchEnv0 : OrchEnv := ⟨[], "wd", "sd", ListResponse.raise, RunOutcome.raise⟩

/-- Conforming entries for the three-entry enumeration scenario. -/
def entryA : WindowEntry := ⟨some 1, some "Firefox", some 0, some 0, [], none⟩

/-- Second conforming entry of the scenario. -/
def entryB : WindowEntry := ⟨some 2, some "Terminal", some 0, some 0, [], none⟩

/-- The non-conforming entry of the scenario, with frame_type 1. -/
def entryC : WindowEntry := ⟨some 3, some "Dialog", some 1, some 0, [], none⟩

/-- A conforming entry whose id field is missing. -/
def entryNoId : WindowEntry := ⟨none, some "Firefox", some 0, some 0, [], none⟩

/-- A backend list whose single available backend fails both captures. -/
def bsFail : List BackendBehavior := [⟨true, some false, some false⟩]

/-- A backend list with one available failing backend and one unavailable
backend. -/
def bsMixed : List BackendBehavior :=
  [⟨true, some false, some false⟩, ⟨false, some true, some true⟩]

/-- Full characterization of the BackendManager.capture_screen iteration:
only available backends are invoked, success is equivalent to some available
backend succeeding, on total failure exactly the available backends were
invoked, and on success the invocation trace ends at the first succeeding
backend. -/
theorem capture_screen_spec (bs : List BackendBehavior) :
    (∀ b ∈ (capture_screen bs).2, b.available = true) ∧
    ((capture_screen bs).1 = true ↔
      ∃ b ∈ bs, b.available = true ∧ b.screen = some true) ∧
    ((capture_screen bs).1 = false →
      (capture_screen bs).2 = bs.filter (fun b => b.available)) ∧
    ((capture_screen bs).1 = true →
      ∃ t b, (capture_screen bs).2 = t ++ [b] ∧ b.screen = some true ∧
        ∀ a ∈ t, a.screen ≠ some true) := by
  induction bs with
  | nil => simp [capture_screen]
  | cons b rest ih =>
    obtain ⟨ih1, ih2, ih3, ih4⟩ := ih
    by_cases ha : b.available = true
    · by_cases hs : b.screen = some true
      · have hres : capture_screen (b :: rest) = (true, [b]) := by
          simp [capture_screen, ha, hs]
        refine ⟨?_, ?_, ?_, ?_⟩
        · intro x hx
          rw [hres] at hx
          simp at hx
          rw [hx, ha]
        · rw [hres]
          simp only [true_iff]
          exact ⟨b, List.mem_cons_self b rest, ha, hs⟩
        · intro hfalse
          rw [hres] at hfalse
          simp at hfalse
        · intro _
          refine ⟨[], b, ?_, hs, ?_⟩
          · rw [hres]
            rfl
          · intro a hmem
            simp at hmem
      · have hres : capture_screen (b :: rest) =
            ((capture_screen rest).1, b :: (capture_screen rest).2) := by
          have hbeq : (b.screen == some true) = false := by
            simp [hs]
          simp [capture_screen, ha, hbeq]
        refine ⟨?_, ?_, ?_, ?_⟩
        · intro x hx
          rw [hres] at hx
          simp at hx
          rcases hx with hx | hx
          · rw [hx, ha]
          · exact ih1 x hx
        · rw [hres]
          simp only []
          constructor
          · intro htrue
            obtain ⟨x, hx, hav, hscr⟩ := ih2.mp htrue
            exact ⟨x, List.mem_cons_of_mem b hx, hav, hscr⟩
          · intro hex
            obtain ⟨x, hx, hav, hscr⟩ := hex
            rcases List.mem_cons.mp hx with hx | hx
            · rw [hx] at hscr
              exact absurd hscr hs
            · exact ih2.mpr ⟨x, hx, hav, hscr⟩
        · intro hfalse
          rw [hres] at hfalse
          rw [hres]
          simp only [List.filter_cons, ha, if_true]
          simp at hfalse ⊢
          exact ih3 hfalse
        · intro htrue
          rw [hres] at htrue
          simp at htrue
          obtain ⟨t, x, htr, hscr, hall⟩ := ih4 htrue
          refine ⟨b :: t, x, ?_, hscr, ?_⟩
          · rw [hres]
            simp [htr]
          · intro a hmem
            rcases List.mem_cons.mp hmem with hmem | hmem
            · rw [hmem]
              exact hs
            · exact hall a hmem
    · have hres : capture_screen (b :: rest) = capture_screen rest := by
        simp [capture_screen, ha]
      have ha2 : b.available = false := by
        cases hab : b.available
        · rfl
        · exact absurd hab ha
      refine ⟨?_, ?_, ?_, ?_⟩
      · intro x hx
        rw [hres] at hx
        exact ih1 x hx
      · rw [hres]
        constructor
        · intro htrue
          obtain ⟨x, hx, hav, hscr⟩ := ih2.mp htrue
          exact ⟨x, List.mem_cons_of_mem b hx, hav, hscr⟩
        · intro hex
          obtain ⟨x, hx, hav, hscr⟩ := hex
          rcases List.mem_cons.mp hx with hx | hx
          · rw [hx] at hav
            exact absurd hav ha
          · exact ih2.mpr ⟨x, hx, hav, hscr⟩
      · intro hfalse
        rw [hres] at hfalse
        rw [hres]
        simp only [List.filter_cons, ha2]
        simp only [Bool.false_eq_true, if_false]
        exact ih3 hfalse
      · intro htrue
        rw [hres] at htrue
        rw [hres]
        exact ih4 htrue

/-- Full characterization of the BackendManager.capture_window iteration,
mirroring capture_screen_spec for the window method. -/
theorem capture_window_spec (bs : List BackendBehavior) :
    (∀ b ∈ (capture_window bs).2, b.available = true) ∧
    ((capture_window bs).1 = true ↔
      ∃ b ∈ bs, b.available = true ∧ b.window = some true) ∧
    ((capture_window bs).1 = false →
      (capture_window bs).2 = bs.filter (fun b => b.available)) ∧
    ((capture_window bs).1 = true →
      ∃ t b, (capture_window bs).2 = t ++ [b] ∧ b.window = some true ∧
        ∀ a ∈ t, a.window ≠ some true) := by
  induction bs with
  | nil => simp [capture_window]
  | cons b rest ih =>
    obtain ⟨ih1, ih2, ih3, ih4⟩ := ih
    by_cases ha : b.available = true
    · by_cases hs : b.window = some true
      · have hres : capture_window (b :: rest) = (true, [b]) := by
          simp [capture_window, ha, hs]
        refine ⟨?_, ?_, ?_, ?_⟩
        · intro x hx
          rw [hres] at hx
          simp at hx
          rw [hx, ha]
        · rw [hres]
          simp only [true_iff]
          exact ⟨b, List.mem_cons_self b rest, ha, hs⟩
        · intro hfalse
          rw [hres] at hfalse
          simp at hfalse
        · intro _
          refine ⟨[], b, ?_, hs, ?_⟩
          · rw [hres]
            rfl
          · intro a hmem
            simp at hmem
      · have hres : capture_window (b :: rest) =
            ((capture_window rest).1, b :: (capture_window rest).2) := by
          have hbeq : (b.window == some true) = false := by
            simp [hs]
          simp [capture_window, ha, hbeq]
        refine ⟨?_, ?_, ?_, ?_⟩
        · intro x hx
          rw [hres] at hx
          simp at hx
          rcases hx with hx | hx
          · rw [hx, ha]
          · exact ih1 x hx
        · rw [hres]
          constructor
          · intro htrue
            obtain ⟨x, hx, hav, hscr⟩ := ih2.mp htrue
            exact ⟨x, List.mem_cons_of_mem b hx, hav, hscr⟩
          · intro hex
            obtain ⟨x, hx, hav, hscr⟩ := hex
            rcases List.mem_cons.mp hx with hx | hx
            · rw [hx] at hscr
              exact absurd hscr hs
            · exact ih2.mpr ⟨x, hx, hav, hscr⟩
        · intro hfalse
          rw [hres] at hfalse
          rw [hres]
          simp only [List.filter_cons, ha, if_true]
          simp at hfalse ⊢
          exact ih3 hfalse
        · intro htrue
          rw [hres] at htrue
          simp at htrue
          obtain ⟨t, x, htr, hscr, hall⟩ := ih4 htrue
          refine ⟨b :: t, x, ?_, hscr, ?_⟩
          · rw [hres]
            simp [htr]
          · intro a hmem
            rcases List.mem_cons.mp hmem with hmem | hmem
            · rw [hmem]
              exact hs
            · exact hall a hmem
    · have hres : capture_window (b :: rest) = capture_window rest := by
        simp [capture_window, ha]
      have ha2 : b.available = false := by
        cases hab : b.available
        · rfl
        · exact absurd hab ha
      refine ⟨?_, ?_, ?_, ?_⟩
      · intro x hx
        rw [hres] at hx
        exact ih1 x hx
      · rw [hres]
        constructor
        · intro htrue
          obtain ⟨x, hx, hav, hscr⟩ := ih2.mp htrue
          exact ⟨x, List.mem_cons_of_mem b hx, hav, hscr⟩
        · intro hex
          obtain ⟨x, hx, hav, hscr⟩ := hex
          rcases List.mem_cons.mp hx with hx | hx
          · rw [hx] at hav
            exact absurd hav ha
          · exact ih2.mpr ⟨x, hx, hav, hscr⟩
      · intro hfalse
        rw [hres] at hfalse
        rw [hres]
        simp only [List.filter_cons, ha2]
        simp only [Bool.false_eq_true, if_false]
        exact ih3 hfalse
      · intro htrue
        rw [hres] at htrue
        rw [hres]
        exact ih4 htrue

/-- Claim C1: for every window id and cursor flag, the window-capture body
never raises solely because the window-targeted backend chain failed: a false
return of the backend manager degrades to the full-screen capture, the body
raises exactly when both the window chain and the screen chain report failure,
and the screen chain fails exactly when every available backend fails. -/
theorem c1_window_fallback_floor (window_id : String) (include_cursor : Bool)
    (bs : List BackendBehavior) (windowData screenData : String) :
    ((capture_window bs).1 = false →
      capture_window_by_id_no_restore window_id include_cursor bs windowData screenData =
        capture_full_screen include_cursor bs screenData) ∧
    (capture_window_by_id_no_restore window_id include_cursor bs windowData screenData =
        Except.error () ↔
      (capture_window bs).1 = false ∧ (capture_screen bs).1 = false) ∧
    ((capture_screen bs).1 = false ↔
      ∀ b ∈ bs, b.available = true → b.screen ≠ some true) := by
  refine ⟨?_, ?_, ?_⟩
  · intro hw
    simp [capture_window_by_id_no_restore, hw]
  · unfold capture_window_by_id_no_restore capture_full_screen
    cases hw : (capture_window bs).1 <;> cases hs : (capture_screen bs).1 <;>
      simp [hw, hs]
  · have h2 := (capture_screen_spec bs).2.1
    constructor
    · intro hf b hb hav hscr
      have htrue : (capture_screen bs).1 = true := h2.mpr ⟨b, hb, hav, hscr⟩
      rw [hf] at htrue
      exact Bool.false_ne_true htrue
    · intro hall
      cases hres : (capture_screen bs).1
      · rfl
      · obtain ⟨b, hb, hav, hscr⟩ := h2.mp hres
        exact absurd hscr (hall b hb hav)

/-- Witness for claim C1: with a single available backend failing both
captures, the window-capture body raises. -/
theorem c1_witness :
    capture_window_by_id_no_restore "7" false bsFail "wd" "sd" = Except.error () :=
  (c1_window_fallback_floor "7" false bsFail "wd" "sd").2.1.mpr (by decide)

/-- Claim C2 counterexample: with a remembered window 5 whose activation call
fails (nonzero exit, so _try_focus_window raises), restore_previous_window
returns with the slot still holding 5 — the claim that the slot is empty after
restore regardless of activation outcome is false on the code, because the
clearing assignment sits inside the try block after the activation call. -/
theorem c2_counterexample :
    restore_previous_window (some "5") (RunOutcome.exit 1) = some "5" ∧
    restore_previous_window (some "5") (RunOutcome.exit 1) ≠ none := by
  constructor <;> decide

/-- Claim C2 (amended): the slot is empty after restore_previous_window
exactly when it was already empty or a non-empty id was remembered and the
activation call succeeded; in every case the slot is either cleared or left
unchanged (in particular a raised activation leaves the remembered id in
place). -/
theorem c2_restore_clears_iff (prev : Option String) (activation : RunOutcome) :
    (restore_previous_window prev activation = none ↔
      prev = none ∨ ∃ w, prev = some w ∧ (w != "") = true ∧
        try_focus_window activation = Except.ok ()) ∧
    (restore_previous_window prev activation = none ∨
      restore_previous_window prev activation = prev) := by
  cases prev with
  | none => simp [restore_previous_window]
  | some w =>
    by_cases hw : w = ""
    · subst hw
      simp [restore_previous_window]
    · cases hact : try_focus_window activation with
      | ok u =>
        cases u
        simp [restore_previous_window, hw, hact]
      | error u =>
        cases u
        simp [restore_previous_window, hw, hact]

/-- Claim C3 counterexample: a call with the present but empty window id
performs a plain full-screen capture with no remember and no restore, so the
claim that every call with a present window_id runs the remember/restore
bracket is false on the code (the dispatch is on Python truthiness, and the
empty string is falsy). -/
theorem c3_counterexample :
    (capture_screenshot (some "") false orchEnv0 none).2.2 = [OrchEvent.capture] := by
  decide

/-- Claim C3 (amended): for every call with a present and non-empty window_id,
remember_active_window runs before the capture attempt and
restore_previous_window runs in the guaranteed epilogue as the last
focus-related action, on every path including the error path (the trace is
fixed regardless of environment and starting slot). -/
theorem c3_remember_restore_bracket (w : String) (hw : w ≠ "")
    (include_cursor : Bool) (env : OrchEnv) (slot : Option String) :
    (capture_screenshot (some w) include_cursor env slot).2.2 =
      [OrchEvent.remember, OrchEvent.capture, OrchEvent.restore] := by
  have ht : pyTruthy (some w) = true := by
    simp [pyTruthy, bne_iff_ne, hw]
  simp [capture_screenshot, ht]

/-- Witness for amended claim C3: the bracket trace at the concrete window id
7 in the failing environment. -/
theorem c3_witness :
    (capture_screenshot (some "7") false orchEnv0 none).2.2 =
      [OrchEvent.remember, OrchEvent.capture, OrchEvent.restore] :=
  c3_remember_restore_bracket "7" (by decide) false orchEnv0 none

/-- Claim C9: a full-screen call (window_id None) leaves the focus slot
untouched and performs neither remember nor restore, on the success and the
error path alike. -/
theorem c9_fullscreen_leaves_slot (include_cursor : Bool) (env : OrchEnv)
    (slot : Option String) :
    (capture_screenshot none include_cursor env slot).2.1 = slot ∧
    (capture_screenshot none include_cursor env slot).2.2 = [OrchEvent.capture] := by
  constructor <;> rfl

/-- Claim C7: for full-screen and window-targeted capture alike, the backend
manager never invokes a capture on a backend whose availability probe returned
false in that call, returns true stopping at the first succeeding backend, and
returns false only after every available backend was invoked. -/
theorem c7_selector_contract (bs : List BackendBehavior) :
    ((∀ b ∈ (capture_screen bs).2, b.available = true) ∧
     ((capture_screen bs).1 = true ↔
       ∃ b ∈ bs, b.available = true ∧ b.screen = some true) ∧
     ((capture_screen bs).1 = false →
       (capture_screen bs).2 = bs.filter (fun b => b.available)) ∧
     ((capture_screen bs).1 = true →
       ∃ t b, (capture_screen bs).2 = t ++ [b] ∧ b.screen = some true ∧
         ∀ a ∈ t, a.screen ≠ some true)) ∧
    ((∀ b ∈ (capture_window bs).2, b.available = true) ∧
     ((capture_window bs).1 = true ↔
       ∃ b ∈ bs, b.available = true ∧ b.window = some true) ∧
     ((capture_window bs).1 = false →
       (capture_window bs).2 = bs.filter (fun b => b.available)) ∧
     ((capture_window bs).1 = true →
       ∃ t b, (capture_window bs).2 = t ++ [b] ∧ b.window = some true ∧
         ∀ a ∈ t, a.window ≠ some true)) :=
  ⟨capture_screen_spec bs, capture_window_spec bs⟩

/-- Witness for claim C7: with one failing available backend and one
unavailable backend, the screen chain fails and exactly the available backend
was invoked. -/
theorem c7_witness :
    (capture_screen bsMixed).2 = bsMixed.filter (fun b => b.available) :=
  (c7_selector_contract bsMixed).1.2.2.1 (by decide)

/-- The scan of _get_window_geometry_gnome is the first entry whose id matches
and whose rect dict is non-empty, formatted (KeyError when a coordinate is
missing from it). -/
theorem findScan_cons (p : WindowEntry → Bool) (a : WindowEntry)
    (l : List WindowEntry) :
    List.find? p (a :: l) = if p a then some a else List.find? p l := by
  cases h : p a <;> simp [List.find?_cons, h]

theorem geometryScan_eq_find (window_id : String) (es : List WindowEntry) :
    geometryScan window_id es =
      match es.find? (fun e => pyStr e.id == window_id && !e.rect.isEmpty) with
      | none => Except.ok none
      | some e => (formatRect e.rect).map some := by
  induction es with
  | nil => rfl
  | cons e rest ih =>
    rw [findScan_cons]
    by_cases h1 : pyStr e.id = window_id
    · by_cases h2 : e.rect.isEmpty = true
      · have hp : (pyStr e.id == window_id && !e.rect.isEmpty) = false := by
          simp [h1, h2]
        simp [geometryScan, h1, h2, hp, ih]
      · have hp : (pyStr e.id == window_id && !e.rect.isEmpty) = true := by
          simp [h1]
          simp at h2
          exact h2
        simp [geometryScan, h1, h2, hp]
    · have hp : (pyStr e.id == window_id && !e.rect.isEmpty) = false := by
        simp [h1]
      simp [geometryScan, h1, hp, ih]

/-- On a clean, parsed enumeration, _get_window_geometry_gnome is determined
by the first matching non-empty-rect entry. -/
theorem get_window_geometry_gnome_exit0 (window_id : String) (es : List WindowEntry) :
    get_window_geometry_gnome window_id (ListResponse.exit 0 (some es)) =
      match es.find? (fun e => pyStr e.id == window_id && !e.rect.isEmpty) with
      | none => none
      | some e =>
        match formatRect e.rect with
        | Except.ok s => some s
        | Except.error _ => none := by
  show (match geometryScan window_id es with
        | Except.ok r => r
        | Except.error _ => none) = _
  rw [geometryScan_eq_find]
  cases es.find? (fun e => pyStr e.id == window_id && !e.rect.isEmpty) with
  | none => rfl
  | some e =>
    show (match Except.map some (formatRect e.rect) with
          | Except.ok r => r
          | Except.error _ => none) =
        (match formatRect e.rect with
         | Except.ok s => some s
         | Except.error _ => none)
    cases formatRect e.rect with
    | ok s => rfl
    | error u => rfl

/-- Claim C5 counterexample: with an entry whose id matches and whose rect
dict is non-empty but has width 0 and height 0, geometry resolution returns
the degenerate rectangle string instead of NotFound — the code checks only
dict non-emptiness, never width > 0 and height > 0, so the claim is false. -/
theorem c5_counterexample :
    get_window_geometry_gnome "9" respZero = some "0,0 0x0" ∧
    rectLookup entryZero.rect "width" = some 0 ∧
    rectLookup entryZero.rect "height" = some 0 := by
  refine ⟨?_, ?_, ?_⟩ <;> decide

/-- Claim C5 (amended): geometry resolution returns a rectangle string exactly
when the response exited cleanly and parsed, the first entry whose id matches
(string-compared) and whose rect dict is non-empty has all four coordinate
keys, and the string formats those coordinates; positivity of width and height
is not checked. All failure cases (raise, nonzero exit, malformed response,
missing coordinate key) yield None, and the function never raises. -/
theorem c5_resolve_characterization (window_id : String) (resp : ListResponse)
    (s : String) :
    get_window_geometry_gnome window_id resp = some s ↔
      ∃ es e, resp = ListResponse.exit 0 (some es) ∧
        es.find? (fun e2 => pyStr e2.id == window_id && !e2.rect.isEmpty) = some e ∧
        formatRect e.rect = Except.ok s := by
  cases resp with
  | raise =>
    simp [get_window_geometry_gnome]
  | exit c parsed =>
    by_cases hc : c = 0
    · subst hc
      cases parsed with
      | none =>
        constructor
        · intro h
          exact absurd h (by simp [get_window_geometry_gnome])
        · rintro ⟨es2, e2, heq, hf, hfmt⟩
          cases heq
      | some es =>
        rw [get_window_geometry_gnome_exit0]
        cases hfind : es.find? (fun e2 => pyStr e2.id == window_id && !e2.rect.isEmpty) with
        | none =>
          constructor
          · intro h
            cases h
          · rintro ⟨es2, e2, heq, hf, hfmt⟩
            injection heq with hA hB
            injection hB with hC
            subst hC
            rw [hfind] at hf
            cases hf
        | some e =>
          have hred : (match some e with
              | none => none
              | some e2 =>
                match formatRect e2.rect with
                | Except.ok s2 => some s2
                | Except.error _ => none) =
              (match formatRect e.rect with
               | Except.ok s2 => some s2
               | Except.error _ => none) := rfl
          rw [hred]
          cases hfmt : formatRect e.rect with
          | ok s0 =>
            constructor
            · intro h
              injection h with h
              subst h
              exact ⟨es, e, rfl, hfind, hfmt⟩
            · rintro ⟨es2, e2, heq, hf, hfmt2⟩
              injection heq with hA hB
              injection hB with hC
              subst hC
              rw [hfind] at hf
              injection hf with hf
              subst hf
              rw [hfmt] at hfmt2
              injection hfmt2 with hs
              rw [hs]
          | error u =>
            constructor
            · intro h
              cases h
            · rintro ⟨es2, e2, heq, hf, hfmt2⟩
              injection heq with hA hB
              injection hB with hC
              subst hC
              rw [hfind] at hf
              injection hf with hf
              subst hf
              rw [hfmt] at hfmt2
              cases hfmt2
    · constructor
      · intro h
        exact absurd h (by simp [get_window_geometry_gnome, hc])
      · rintro ⟨es2, e2, heq, hf, hfmt⟩
        injection heq with hA hB
        exact absurd hA hc

/-- Witness for amended claim C5: the concrete scenario of the spec, id 7 with
rectangle 10,20 300x200 shrunk to 1,2 3x4, resolves to its geometry string. -/
theorem c5_witness :
    get_window_geometry_gnome "7" listResp7 = some "1,2 3x4" :=
  (c5_resolve_characterization "7" listResp7 "1,2 3x4").mpr
    ⟨[entry7], entry7, rfl, by decide, rfl⟩

/-- A conforming entry with a present id passing the filter contributes its
stringified id and wm_class title; the KeyError on a missing id discards the
whole result, so an ok result is exactly the filtered map. -/
theorem buildWindows_ok_eq (es : List WindowEntry) (ws : List Window)
    (hb : buildWindows es = Except.ok ws) :
    ws = (es.filter conforming).map
      (fun e => { id := toString (e.id.getD 0), title := e.wm_class.getD "Unknown" }) := by
  induction es generalizing ws with
  | nil =>
    simp [buildWindows] at hb
    simp [hb]
  | cons e rest ih =>
    by_cases hc : conforming e = true
    · cases hid : e.id with
      | none =>
        simp [buildWindows, hc, hid] at hb
      | some n =>
        cases hrest : buildWindows rest with
        | error u =>
          simp [buildWindows, hc, hid, hrest] at hb
        | ok ws2 =>
          simp [buildWindows, hc, hid, hrest] at hb
          rw [List.filter_cons, if_pos hc, List.map_cons]
          rw [← hb, ← ih ws2 hrest]
          simp [hid]
    · have hc2 : conforming e = false := by
        cases hcc : conforming e
        · rfl
        · exact absurd hcc hc
      simp [buildWindows, hc2] at hb
      rw [List.filter_cons, if_neg (by simp [hc2])]
      exact ih ws hb

/-- Claim C6: every list produced by the primary enumeration strategy is
exactly the conforming entries (frame_type 0 and window_type 0) in order, each
mapped to its stringified numeric id and its window-class title — entries
violating the filter are never present. -/
theorem c6_primary_filter_invariant (es : List WindowEntry) (ws : List Window)
    (h : list_windows_via_extension (ListResponse.exit 0 (some es)) = Except.ok ws) :
    ws = (es.filter conforming).map
      (fun e => { id := toString (e.id.getD 0), title := e.wm_class.getD "Unknown" }) := by
  have hb : buildWindows es = Except.ok ws := by
    have : list_windows_via_extension (ListResponse.exit 0 (some es)) = buildWindows es := by
      simp [list_windows_via_extension]
    rw [this] at h
    exact h
  exact buildWindows_ok_eq es ws hb

/-- Witness for claim C6: the spec scenario — a three-entry response where one
entry has frame_type 1 yields exactly the two conforming entries, ids
stringified, titles from the class name. -/
theorem c6_witness :
    list_windows_via_extension (ListResponse.exit 0 (some [entryA, entryC, entryB])) =
      Except.ok [{ id := "1", title := "Firefox" }, { id := "2", title := "Terminal" }] ∧
    [({ id := "1", title := "Firefox" } : Window), { id := "2", title := "Terminal" }] =
      ([entryA, entryC, entryB].filter conforming).map
        (fun e => { id := toString (e.id.getD 0), title := e.wm_class.getD "Unknown" }) :=
  ⟨rfl, c6_primary_filter_invariant [entryA, entryC, entryB] _ rfl⟩

/-- A conforming entry with a missing id makes the whole conversion loop raise
KeyError. -/
theorem buildWindows_error_of_missing_id (es : List WindowEntry) (e : WindowEntry)
    (h1 : e ∈ es) (h2 : conforming e = true) (h3 : e.id = none) :
    buildWindows es = Except.error () := by
  induction es with
  | nil => cases h1
  | cons x rest ih =>
    rcases List.mem_cons.mp h1 with hx | hx
    · subst hx
      simp [buildWindows, h2, h3]
    · by_cases hcx : conforming x = true
      · cases hid : x.id with
        | none => simp [buildWindows, hcx, hid]
        | some n => simp [buildWindows, hcx, hid, ih hx]
      · have hcx2 : conforming x = false := by
          cases hxx : conforming x
          · rfl
          · exact absurd hxx hcx
        simp [buildWindows, hcx2]
        exact ih hx

/-- Claim C10: when a clean, parsed primary enumeration contains a conforming
entry without an id field, the entire primary result is discarded (the lookup
error escapes the extension strategy) and list_windows silently returns
whatever the process-scan fallback produces — a partial primary list is never
returned, and the Host sees an error only when the fallback also fails. -/
theorem c10_primary_discarded (es : List WindowEntry) (e : WindowEntry)
    (h1 : e ∈ es) (h2 : conforming e = true) (h3 : e.id = none) :
    list_windows_via_extension (ListResponse.exit 0 (some es)) = Except.error () ∧
    ∀ processScan, list_windows (ListResponse.exit 0 (some es)) processScan = processScan := by
  have herr : buildWindows es = Except.error () :=
    buildWindows_error_of_missing_id es e h1 h2 h3
  have hext : list_windows_via_extension (ListResponse.exit 0 (some es)) =
      Except.error () := by
    simp [list_windows_via_extension, herr]
  refine ⟨hext, ?_⟩
  intro ps
  unfold list_windows
  rw [hext]
  cases ps with
  | ok ws => rfl
  | error u =>
    cases u
    rfl

/-- Witness for claim C10: the single-entry response whose conforming entry
lacks an id falls back to the process-scan outcome. -/
theorem c10_witness :
    list_windows (ListResponse.exit 0 (some [entryNoId])) (Except.ok []) =
      Except.ok [] :=
  (c10_primary_discarded [entryNoId] entryNoId (by simp) (by decide) rfl).2
    (Except.ok [])

/-- The interactive grim-with-slurp method always contributes exactly one
trace step. -/
theorem tryInteractiveStep_trace (env : GnomeWindowEnv) (tr : List GStep) :
    (tryInteractiveStep env tr).2 = tr ++ [GStep.grimInteractive] := by
  unfold tryInteractiveStep
  cases hs : env.slurp with
  | raise => rfl
  | exit c =>
    by_cases hc : c = 0
    · cases hg : env.grimSlurp with
      | raise => simp [hc]
      | exit c2 =>
        by_cases hc2 : c2 = 0
        · cases hf : env.grimSlurpFile <;> simp [hc, hc2, hf]
        · simp [hc, hc2]
    · simp [hc]

/-- The focus-based fallback extends the trace with the focus step, then
possibly the gnome-screenshot step, then possibly the interactive step, in
that order. -/
theorem focusFallback_trace (env : GnomeWindowEnv) (tr : List GStep) :
    (focusFallback env tr).2 = tr ++ [GStep.focusWindow] ∨
    (focusFallback env tr).2 =
      tr ++ [GStep.focusWindow, GStep.gnomeScreenshotWindow] ∨
    (focusFallback env tr).2 =
      tr ++ [GStep.focusWindow, GStep.gnomeScreenshotWindow, GStep.grimInteractive] := by
  cases hf : try_focus_window env.focus with
  | error u =>
    left
    simp [focusFallback, hf]
  | ok u =>
    cases hg : env.gnomeShot with
    | raise =>
      right; right
      simp [focusFallback, hf, hg, tryInteractiveStep_trace]
    | exit c =>
      by_cases hc : c = 0
      · cases hfile : env.gnomeShotFile
        · right; right
          simp [focusFallback, hf, hg, hc, hfile, tryInteractiveStep_trace]
        · right; left
          simp [focusFallback, hf, hg, hc, hfile]
      · right; right
        simp [focusFallback, hf, hg, hc, tryInteractiveStep_trace]

/-- When geometry resolves, the first strategy step of the GNOME backend's
window capture is the exact-geometry grim invocation. -/
theorem gnome_capture_window_head (window_id : String) (env : GnomeWindowEnv)
    (h : get_window_geometry_gnome window_id env.listResp ≠ none) :
    ∃ tr, (gnome_capture_window window_id env).2 = GStep.grimGeometry :: tr := by
  cases hg : get_window_geometry_gnome window_id env.listResp with
  | none => exact absurd hg h
  | some g =>
    cases hgeo : env.grimGeo with
    | raise =>
      exact ⟨[], by simp [gnome_capture_window, hg, hgeo]⟩
    | exit c =>
      by_cases hc : c = 0
      · cases hfile : env.grimGeoFile
        · have hres : gnome_capture_window window_id env =
              focusFallback env [GStep.grimGeometry] := by
            simp [gnome_capture_window, hg, hgeo, hc, hfile]
          rcases focusFallback_trace env [GStep.grimGeometry] with ht | ht | ht
          · exact ⟨[GStep.focusWindow], by rw [hres, ht]; rfl⟩
          · exact ⟨[GStep.focusWindow, GStep.gnomeScreenshotWindow],
              by rw [hres, ht]; rfl⟩
          · exact ⟨[GStep.focusWindow, GStep.gnomeScreenshotWindow,
              GStep.grimInteractive], by rw [hres, ht]; rfl⟩
        · exact ⟨[], by simp [gnome_capture_window, hg, hgeo, hc, hfile]⟩
      · exact ⟨[], by simp [gnome_capture_window, hg, hgeo, hc]⟩

/-- Claim C4 counterexample: with geometry for window 7 resolved and an
available, succeeding portal backend, BackendManager.capture_window invokes
only the portal capture — the exact-geometry path is never invoked and the
ordered chain (portal first) is consulted, so the claim that a resolved
geometry bypasses backend iteration is false on the code. -/
theorem c4_counterexample :
    get_window_geometry_gnome "7" genvOrder.listResp = some "1,2 3x4" ∧
    backend_manager_capture_window ⟨true, true⟩ true "7" genvOrder =
      (true, [CaptureEvent.portalWindow]) := by
  constructor <;> decide

/-- Claim C4 (amended): the backend chain is never bypassed — the portal
backend, when available, is always invoked first; the exact-geometry path is
the first strategy only inside the native-tool backend, so it runs first
exactly when the portal backend is unavailable or failed and geometry
resolution succeeded. -/
theorem c4_chain_order (portal : PortalEnv) (genv : GnomeWindowEnv)
    (window_id : String) :
    (portal.available = true →
      (backend_manager_capture_window portal true window_id genv).2.head? =
        some CaptureEvent.portalWindow) ∧
    (portal.available = true → portal.windowOk = false →
      get_window_geometry_gnome window_id genv.listResp ≠ none →
      (backend_manager_capture_window portal true window_id genv).2.take 2 =
        [CaptureEvent.portalWindow, CaptureEvent.gstep GStep.grimGeometry]) ∧
    (portal.available = false →
      get_window_geometry_gnome window_id genv.listResp ≠ none →
      (backend_manager_capture_window portal true window_id genv).2.head? =
        some (CaptureEvent.gstep GStep.grimGeometry)) := by
  refine ⟨?_, ?_, ?_⟩
  · intro ha
    unfold backend_manager_capture_window
    rw [ha]
    cases hw : portal.windowOk
    · simp
    · simp
  · intro ha hw hgeo
    obtain ⟨tr, htr⟩ := gnome_capture_window_head window_id genv hgeo
    unfold backend_manager_capture_window
    rw [ha, hw]
    simp only [if_pos rfl, Bool.false_eq_true, if_false, htr]
    rfl
  · intro ha hgeo
    obtain ⟨tr, htr⟩ := gnome_capture_window_head window_id genv hgeo
    unfold backend_manager_capture_window
    rw [ha]
    simp only [Bool.false_eq_true, if_false, if_pos rfl, htr]
    rfl

/-- Witness for amended claim C4: with the portal unavailable and geometry
resolved, the first invocation is the exact-geometry grim step. -/
theorem c4_witness :
    (backend_manager_capture_window ⟨false, false⟩ true "7" genvOrder).2.head? =
      some (CaptureEvent.gstep GStep.grimGeometry) :=
  (c4_chain_order ⟨false, false⟩ genvOrder "7").2.2 rfl (by decide)

/-- Claim C8 counterexample: in an environment where the exact-geometry step
fails (clean exit, no file) and every later tool fails, the attempted order is
grim-geometry, focus, gnome-screenshot (the legacy utility), and the
interactive grim-with-slurp capture last — the legacy utility strictly
precedes the interactive region selection, contradicting the claimed order in
which the interactive selection belongs to the geometry step and precedes the
legacy utility. -/
theorem c8_counterexample :
    gnome_capture_window "7" genvOrder =
      (false, [GStep.grimGeometry, GStep.focusWindow, GStep.gnomeScreenshotWindow,
        GStep.grimInteractive]) ∧
    List.indexOf GStep.gnomeScreenshotWindow (gnome_capture_window "7" genvOrder).2 <
      List.indexOf GStep.grimInteractive (gnome_capture_window "7" genvOrder).2 := by
  constructor <;> decide

/-- Claim C8 (amended): the GNOME backend's window-capture strategy order is
exact-geometry grim (when geometry resolved), then focus activation, then the
legacy gnome-screenshot window capture, then the interactive grim-with-slurp
capture last; every attempt trace is a prefix of this canonical order (each
later step runs only after the earlier ones fell through), and an exception in
the exact-geometry step (here: the grim invocation raising) aborts the
remaining steps with the backend reporting failure. -/
theorem c8_strategy_order (window_id : String) (env : GnomeWindowEnv) :
    (get_window_geometry_gnome window_id env.listResp ≠ none →
      (gnome_capture_window window_id env).2 =
        [GStep.grimGeometry, GStep.focusWindow, GStep.gnomeScreenshotWindow,
          GStep.grimInteractive].take (gnome_capture_window window_id env).2.length) ∧
    (get_window_geometry_gnome window_id env.listResp = none →
      (gnome_capture_window window_id env).2 =
        [GStep.focusWindow, GStep.gnomeScreenshotWindow,
          GStep.grimInteractive].take (gnome_capture_window window_id env).2.length) ∧
    (get_window_geometry_gnome window_id env.listResp ≠ none →
      env.grimGeo = RunOutcome.raise →
      gnome_capture_window window_id env = (false, [GStep.grimGeometry])) := by
  cases hg : get_window_geometry_gnome window_id env.listResp with
  | none =>
    refine ⟨fun h => absurd rfl h, fun _ => ?_, fun h => absurd rfl h⟩
    have hcw : gnome_capture_window window_id env = focusFallback env [] := by
      simp [gnome_capture_window, hg]
    rw [hcw]
    rcases focusFallback_trace env [] with ht | ht | ht <;> rw [ht] <;> rfl
  | some g =>
    have hne : get_window_geometry_gnome window_id env.listResp = some g := hg
    refine ⟨fun _ => ?_, fun h => Option.noConfusion h, fun _ hraise => ?_⟩
    · cases hgeo : env.grimGeo with
      | raise =>
        have hres : gnome_capture_window window_id env =
            (false, [GStep.grimGeometry]) := by
          simp [gnome_capture_window, hg, hgeo]
        rw [hres]
        rfl
      | exit c =>
        by_cases hc : c = 0
        · cases hfile : env.grimGeoFile
          · have hres : gnome_capture_window window_id env =
                focusFallback env [GStep.grimGeometry] := by
              simp [gnome_capture_window, hg, hgeo, hc, hfile]
            rw [hres]
            rcases focusFallback_trace env [GStep.grimGeometry] with ht | ht | ht <;>
              rw [ht] <;> rfl
          · have hres : gnome_capture_window window_id env =
                (true, [GStep.grimGeometry]) := by
              simp [gnome_capture_window, hg, hgeo, hc, hfile]
            rw [hres]
            rfl
        · have hres : gnome_capture_window window_id env =
              (false, [GStep.grimGeometry]) := by
            simp [gnome_capture_window, hg, hgeo, hc]
          rw [hres]
          rfl
    · have hres : gnome_capture_window window_id env =
          (false, [GStep.grimGeometry]) := by
        simp [gnome_capture_window, hg, hraise]
      rw [hres]

/-- Witness for amended claim C8: the full canonical trace in the concrete
all-tools-fail environment is a prefix of the stated order. -/
theorem c8_witness :
    (gnome_capture_window "7" genvOrder).2 =
      [GStep.grimGeometry, GStep.focusWindow, GStep.gnomeScreenshotWindow,
        GStep.grimInteractive].take (gnome_capture_window "7" genvOrder).2.length :=
  (c8_strategy_order "7" genvOrder).1 (by decide)

end Shotty
